import Mathlib

/-!
Shallow embedding of the backend logic of `src/app.py` (Synthesis Studio).

The app orchestrates two pipelines over external services:
the Presenter pipeline (D-ID job submission `create_talk`, polling
`get_talk_result`) and the Captioning pipeline (Whisper transcription
`transcribe_audio_with_timestamps`, caption compositing
`create_video_with_captions`).  Network and media effects are modelled as
explicit environment parameters (the outcome each external call would
produce), and each embedded function returns the list of observable events
it emits (UI messages, network calls) together with its return value.
The unbounded `while` polling loop is modelled with explicit fuel: the
outcome `running` means the loop has not exited within the given fuel.
-/

/-- A word-level transcription token as consumed by
`create_video_with_captions`: `word_info['word']`, `word_info['start']`,
`word_info['end']`.  Times are seconds, modelled as rationals. -/
structure WordInfo where
  word : String
  start : ℚ
  «end» : ℚ
  deriving DecidableEq, Repr

/-- One transcript segment: the code reads `segment.get('words', [])`,
so the `words` key may be absent. -/
structure Segment where
  words : Option (List WordInfo)
  deriving DecidableEq, Repr

/-- A moviepy `TextClip` as built in `create_video_with_captions`:
`TextClip(word.upper(), fontsize=70, color='white', font='Impact',
stroke_color='black', stroke_width=2).set_pos('center')
.set_duration(end - start).set_start(start)`. -/
structure TextClip where
  text : String
  fontsize : Nat
  color : String
  font : String
  stroke_color : String
  stroke_width : Nat
  pos : String
  duration : ℚ
  start : ℚ
  deriving DecidableEq, Repr

/-- Observable events of one run: Streamlit UI messages and external calls. -/
inductive Event where
  | errorMsg (msg : String)
  | warning (msg : String)
  | info (msg : String)
  | toast (msg : String)
  | successMsg (msg : String)
  | spinner (msg : String)
  | netPost (url : String) (script_in : String)
  | netGet (url : String)
  | videoShown
  | downloadButton
  | composite (clips : List TextClip)
  | writeFile (path : String)
  deriving DecidableEq, Repr

/-- `str(x)` of an optional string as a Python f-string renders it:
`None` prints as `"None"`. -/
def pyStr : Option String → String
  | none => "None"
  | some s => s

/-- `response.text if 'response' in locals() else 'N/A'` in `create_talk`. -/
def pyRespText : Option String → String
  | none => "N/A"
  | some t => t

/-- Python truthiness of an optional list (`None` and `[]` are falsy). -/
def pyTruthyList {α : Type} : Option (List α) → Bool
  | none => false
  | some [] => false
  | some (_ :: _) => true

def D_ID_URL : String := "https://api.d-id.com/talks"

def AVATAR_URL : String := "https://cdn.d-id.com/images/predefined_laura.jpg"

/-- Python's `str.upper()`: uppercase every character. -/
def pyUpper (s : String) : String :=
  String.mk (s.data.map Char.toUpper)

/-- The caption clip the inner loop of `create_video_with_captions` builds
from one `word_info`. -/
def mkWordClip (w : WordInfo) : TextClip :=
  { text := pyUpper w.word
    fontsize := 70
    color := "white"
    font := "Impact"
    stroke_color := "black"
    stroke_width := 2
    pos := "center"
    duration := w.«end» - w.start
    start := w.start }

/-- The `text_clips` list accumulated by the nested loops
`for segment in segments: for word_info in segment.get('words', []):`
in `create_video_with_captions` (lines 117-122 of `src/app.py`). -/
def textClipsOf : List Segment → List TextClip
  | [] => []
  | seg :: rest => (seg.words.getD []).map mkWordClip ++ textClipsOf rest

/-- The overlay list is the map of `mkWordClip` over all tokens of all
segments, in order. -/
theorem textClipsOf_eq_map (segs : List Segment) :
    textClipsOf segs
      = (segs.flatMap (fun s => s.words.getD [])).map mkWordClip := by
  induction segs with
  | nil => rfl
  | cons seg rest ih =>
      simp [textClipsOf, List.flatMap_cons, ih]

/-- The parsed JSON body of a D-ID `POST /talks` response; the orchestrator
only reads its `id` key (`talk_data.get("id")`). -/
structure TalkResponse where
  id : Option String
  deriving DecidableEq, Repr

/-- Outcome of the `requests.post` in `create_talk`: either the request (or
`raise_for_status`) raises a `RequestException` — `e` is the exception text
and `text` is `response.text` when a response object exists — or it succeeds
with a parsed JSON body. -/
inductive HttpOutcome where
  | exn (e : String) (text : Option String)
  | ok (body : TalkResponse)
  deriving DecidableEq, Repr

/-- `create_talk(script_text)` (src/app.py lines 53-73): missing API key
short-circuits with an error and `None`; otherwise the POST is always made
(there is no empty-script validation), a `RequestException` is caught,
reported with the response body, and turned into `None`, and a successful
response is returned parsed. -/
def create_talk (apiKey : Option String) (script_text : String)
    (http : HttpOutcome) : List Event × Option TalkResponse :=
  match apiKey with
  | none =>
      ([.errorMsg "D-ID API Key not found. Please ensure it is set in your Streamlit secrets."],
       none)
  | some _ =>
      match http with
      | .ok body => ([.netPost D_ID_URL script_text], some body)
      | .exn e text =>
          ([.netPost D_ID_URL script_text,
            .errorMsg ("Error creating D-ID talk: " ++ e ++ "\nResponse: " ++ pyRespText text)],
           none)

/-- The parsed JSON body of a D-ID status query: the code reads
`result.get("status")`, `result.get("result_url")` and (on failure)
`result.get("result")`. -/
structure StatusResponse where
  status : Option String
  result_url : Option String
  result : Option String
  deriving DecidableEq, Repr

/-- Outcome of one `requests.get` status poll. -/
inductive PollResp where
  | exn (e : String)
  | ok (body : StatusResponse)
  deriving DecidableEq, Repr

/-- Result of running the polling `while` loop with bounded fuel:
`running` means the loop had not exited yet. -/
inductive LoopResult where
  | running
  | transportFail (e : String)
  | finished (r : StatusResponse)
  deriving DecidableEq, Repr

/-- The `while status not in ["done", "error"]` loop of `get_talk_result`
(src/app.py lines 80-90), with the k-th poll answered by `polls k`.  Each
iteration performs the GET, reads the status, emits the progress toast and
sleeps; a `RequestException` is caught, reported and ends the function. -/
def pollLoop (talkId : String) (polls : Nat → PollResp) :
    Nat → Nat → List Event × LoopResult
  | _, 0 => ([], .running)
  | k, fuel + 1 =>
      match polls k with
      | .exn e =>
          ([.netGet (D_ID_URL ++ "/" ++ talkId),
            .errorMsg ("Error getting D-ID result: " ++ e)],
           .transportFail e)
      | .ok b =>
          let evs : List Event :=
            [.netGet (D_ID_URL ++ "/" ++ talkId),
             .toast ("D-ID video generation status: " ++ pyStr b.status ++ "...")]
          if b.status = some "done" ∨ b.status = some "error" then
            (evs, .finished b)
          else
            let rest := pollLoop talkId polls (k + 1) fuel
            (evs ++ rest.1, rest.2)

/-- Return value of `get_talk_result`: `out r` models the Python function
returning `r` (`None` or a URL string); `diverged` marks a run whose loop
never exited within the fuel. -/
inductive TalkRet where
  | out (r : Option String)
  | diverged
  deriving DecidableEq, Repr

/-- `get_talk_result(talk_id)` (src/app.py lines 75-94): missing API key
returns `None` silently; otherwise the loop runs; a terminal `error` status
is reported (message carrying `result.get('result')`) and yields `None`;
a terminal `done` status yields `result.get("result_url")`. -/
def get_talk_result (apiKey : Option String) (talkId : String)
    (polls : Nat → PollResp) (fuel : Nat) : List Event × TalkRet :=
  match apiKey with
  | none => ([], .out none)
  | some _ =>
      let p := pollLoop talkId polls 0 fuel
      match p.2 with
      | .running => (p.1, .diverged)
      | .transportFail _ => (p.1, .out none)
      | .finished r =>
          if r.status = some "error" then
            (p.1 ++ [.errorMsg ("D-ID job failed: " ++ pyStr r.result)], .out none)
          else
            (p.1, .out r.result_url)

/-- The parsed output of `replicate.run`; the code reads
`output.get("segments", [])`, so the key may be absent. -/
structure WhisperOutput where
  segments : Option (List Segment)
  deriving DecidableEq, Repr

/-- Outcome of the `replicate.run` call (and the surrounding `try` body)
in `transcribe_audio_with_timestamps`. -/
inductive ReplicateOutcome where
  | exn (e : String)
  | ok (output : WhisperOutput)
  deriving DecidableEq, Repr

/-- `transcribe_audio_with_timestamps(audio_file_path)` (src/app.py lines
97-110): missing token errors and returns `None`; any exception is caught,
reported and turned into `None`; success returns
`output.get("segments", [])`. -/
def transcribe_audio_with_timestamps (token : Option String)
    (run : ReplicateOutcome) : List Event × Option (List Segment) :=
  match token with
  | none =>
      ([.errorMsg "Replicate API token not found. Cannot generate captions."], none)
  | some _ =>
      match run with
      | .exn e =>
          ([.errorMsg ("An error occurred during transcription: " ++ e)], none)
      | .ok output => ([], some (output.segments.getD []))

/-- Outcome of the moviepy work in `create_video_with_captions`
(`VideoFileClip`, `TextClip` construction, `write_videofile`): either some
step raises with message `e`, or everything succeeds. -/
inductive MoviepyEnv where
  | exn (e : String)
  | ok
  deriving DecidableEq, Repr

/-- `create_video_with_captions(original_video_path, segments)` (src/app.py
lines 112-132): on success it composites the base clip with the caption
clips of `textClipsOf` and writes `temp_captioned_video.mp4`; any exception
is caught, reported (with an extra hint when the message mentions
ImageMagick — `"ImageMagick" in str(e)`) and turned into `None`. -/
def create_video_with_captions (env : MoviepyEnv) (segments : List Segment) :
    List Event × Option String :=
  match env with
  | .exn e =>
      ([.errorMsg ("Error creating captioned video: " ++ e)] ++
        (if (e.splitOn "ImageMagick").length ≥ 2 then
          [.errorMsg "MoviePy Error: ImageMagick is not installed or not found. This is usually pre-installed on Streamlit Cloud but required for local execution."]
        else []),
       none)
  | .ok =>
      ([.composite (textClipsOf segments), .writeFile "temp_captioned_video.mp4"],
       some "temp_captioned_video.mp4")

/-- Overall outcome of the Feature-1 button handler: the URL passed to
`st.video` on success, `none` on a surfaced error, `diverged` when the
polling loop never exits. -/
inductive HandlerRet where
  | done (videoUrl : Option String)
  | diverged
  deriving DecidableEq, Repr

/-- The Feature-1 ("Generate AI Presenter Video") button handler
(src/app.py lines 150-167): empty script warns and stops before any call;
missing key errors; then `create_talk`, the truthiness check
`talk_data and talk_data.get("id")`, `get_talk_result`, and the final
`if video_url:` check. -/
def presenterHandler (script : String) (dKey : Option String)
    (http : HttpOutcome) (polls : Nat → PollResp) (fuel : Nat) :
    List Event × HandlerRet :=
  if script = "" then
    ([.warning "Please enter a script first."], .done none)
  else
    match dKey with
    | none => ([.errorMsg "D-ID API Key is missing. Cannot generate video."], .done none)
    | some key =>
        let ct := create_talk (some key) script http
        let ev1 := Event.spinner "Sending script to our AI presenter..." :: ct.1
        match ct.2 with
        | some d =>
            match d.id with
            | some i =>
                if i = "" then
                  (ev1 ++ [.errorMsg "Failed to start the video generation job."], .done none)
                else
                  let ev2 := ev1 ++
                    [Event.info "Video generation job started! Please wait, this can take a few minutes.",
                     Event.spinner "AI is rendering your video..."]
                  let gr := get_talk_result (some key) i polls fuel
                  match gr.2 with
                  | .diverged => (ev2 ++ gr.1, .diverged)
                  | .out none =>
                      (ev2 ++ gr.1 ++ [.errorMsg "Failed to retrieve the generated video."], .done none)
                  | .out (some u) =>
                      if u = "" then
                        (ev2 ++ gr.1 ++ [.errorMsg "Failed to retrieve the generated video."], .done none)
                      else
                        (ev2 ++ gr.1 ++ [.successMsg "Your AI Presenter video is ready!", .videoShown],
                         .done (some u))
            | none => (ev1 ++ [.errorMsg "Failed to start the video generation job."], .done none)
        | none => (ev1 ++ [.errorMsg "Failed to start the video generation job."], .done none)

/-- The Feature-2 ("Generate Captions") button handler (src/app.py lines
178-211): missing token errors; otherwise audio is extracted, the audio is
transcribed, and — only when `if segments:` is truthy (a non-`None`,
non-empty list) — captions are burned; a `None` compositing result is
reported; success shows the video and offers the download button.
Audio extraction (lines 188-190) is modelled as succeeding: its moviepy
calls are not wrapped in any `try` in the source. -/
def captioningHandler (repToken : Option String) (run : ReplicateOutcome)
    (env : MoviepyEnv) : List Event × Option String :=
  match repToken with
  | none =>
      ([.errorMsg "Replicate API Token is missing. Cannot generate captions."], none)
  | some tok =>
      let pre : List Event :=
        [.spinner "Step 1/3: Extracting audio...",
         .spinner "Step 2/3: Transcribing audio with Whisper AI..."]
      let tr := transcribe_audio_with_timestamps (some tok) run
      match tr.2 with
      | some (s :: ss) =>
          let burn : List Event :=
            [.spinner "Step 3/3: Burning captions onto your video... This is intensive!"]
          let cv := create_video_with_captions env (s :: ss)
          match cv.2 with
          | some p =>
              (pre ++ tr.1 ++ burn ++ cv.1 ++
                [.successMsg "Captioned video generated!", .videoShown, .downloadButton],
               some p)
          | none =>
              (pre ++ tr.1 ++ burn ++ cv.1 ++ [.errorMsg "Could not create the final video."],
               none)
      | _ => (pre ++ tr.1 ++ [.errorMsg "Could not transcribe the audio."], none)

/-- A poll response that keeps the loop going: a successful status query
whose status field is neither `done` nor `error` (this includes an absent
status and any string outside the enum). -/
def nonterminalOk (p : PollResp) : Prop :=
  ∃ b, p = PollResp.ok b ∧ b.status ≠ some "done" ∧ b.status ≠ some "error"

/-- Recognizes status-query network calls in a trace. -/
def isNetGet : Event → Bool
  | .netGet _ => true
  | _ => false

/-- C1: for every list of transcript segments (including the empty list),
the mapping inside `create_video_with_captions` produces exactly one
caption overlay per word token — text uppercased, position centered, start
equal to the token's start, duration equal to end minus start — so the
overlay count equals the total token count across all segments. -/
theorem C1_overlay_per_token (segs : List Segment) :
    textClipsOf segs
      = (segs.flatMap (fun s => s.words.getD [])).map (fun w =>
          { text := pyUpper w.word
            fontsize := 70
            color := "white"
            font := "Impact"
            stroke_color := "black"
            stroke_width := 2
            pos := "center"
            duration := w.«end» - w.start
            start := w.start }) ∧
    (textClipsOf segs).length
      = (segs.map (fun s => (s.words.getD []).length)).sum := by
  refine ⟨textClipsOf_eq_map segs, ?_⟩
  rw [textClipsOf_eq_map segs]
  simp [Function.comp_def]

/-- C5: the code renders a zero-duration word token as-is: the token
`("hi", 0.5, 0.5)` is neither excluded from the overlay output nor given a
minimum duration — it becomes a centered overlay of duration `0`. -/
theorem C5_zero_duration_rendered :
    textClipsOf [⟨some [⟨"hi", (1 : ℚ)/2, (1 : ℚ)/2⟩]⟩]
      = [{ text := "HI"
           fontsize := 70
           color := "white"
           font := "Impact"
           stroke_color := "black"
           stroke_width := 2
           pos := "center"
           duration := 0
           start := (1 : ℚ)/2 }] := by
  have hup : pyUpper "hi" = "HI" := rfl
  have hsub : (1 : ℚ)/2 - (1 : ℚ)/2 = 0 := by norm_num
  simp [textClipsOf, mkWordClip, hup, hsub]

/-- C9: the transcript-to-overlay mapping is deterministic — two runs on
the same segment list produce identical overlay lists. -/
theorem C9_mapping_deterministic (s1 s2 : List Segment) (h : s1 = s2) :
    textClipsOf s1 = textClipsOf s2 := by
  rw [h]

theorem C9_mapping_deterministic_witness :
    textClipsOf [⟨some [⟨"hi", 0, (2 : ℚ)/5⟩, ⟨"there", (2 : ℚ)/5, (9 : ℚ)/10⟩]⟩]
      = textClipsOf [⟨some [⟨"hi", 0, (2 : ℚ)/5⟩, ⟨"there", (2 : ℚ)/5, (9 : ℚ)/10⟩]⟩] :=
  C9_mapping_deterministic _ _ rfl

/-- C10: a transcription response without a `segments` key yields
`some []` (an empty list, not a distinct error value), and the captioning
orchestrator treats it exactly like a genuinely empty transcript: the same
run, aborting with "Could not transcribe the audio." and no output. -/
theorem C10_missing_segments_key (tok : String) (env : MoviepyEnv) :
    (transcribe_audio_with_timestamps (some tok) (.ok ⟨none⟩)).2 = some [] ∧
    captioningHandler (some tok) (.ok ⟨none⟩) env
      = captioningHandler (some tok) (.ok ⟨some []⟩) env ∧
    (captioningHandler (some tok) (.ok ⟨none⟩) env).2 = none ∧
    Event.errorMsg "Could not transcribe the audio."
      ∈ (captioningHandler (some tok) (.ok ⟨none⟩) env).1 := by
  refine ⟨rfl, rfl, rfl, ?_⟩
  simp [captioningHandler, transcribe_audio_with_timestamps]

/-- C3 counterexample: with a valid key, `create_talk` applied to the empty
script performs the network POST (submitting the empty content) and returns
the parsed response with no validation or configuration error. -/
theorem C3_counterexample :
    create_talk (some "key") "" (.ok ⟨some "abc123"⟩)
      = ([Event.netPost D_ID_URL ""], some ⟨some "abc123"⟩) := rfl

/-- C3 (amended): the empty-script rejection lives in the Feature-1
orchestrator, which warns and stops with no network call and without
invoking `create_talk`; `create_talk` itself short-circuits (without a
network call) only on a missing API key. -/
theorem C3_empty_script_guard (dKey : Option String) (http : HttpOutcome)
    (polls : Nat → PollResp) (fuel : Nat) :
    presenterHandler "" dKey http polls fuel
      = ([Event.warning "Please enter a script first."], HandlerRet.done none) ∧
    create_talk none "" http
      = ([Event.errorMsg "D-ID API Key not found. Please ensure it is set in your Streamlit secrets."],
         none) :=
  ⟨rfl, rfl⟩

lemma pollLoop_running (talkId : String) (polls : Nat → PollResp)
    (h : ∀ i, nonterminalOk (polls i)) :
    ∀ (fuel k : Nat), (pollLoop talkId polls k fuel).2 = LoopResult.running := by
  intro fuel
  induction fuel with
  | zero => intro k; rfl
  | succ fuel ih =>
      intro k
      obtain ⟨b, hb, hd, he⟩ := h k
      simp only [pollLoop, hb]
      rw [if_neg (by simp [hd, he])]
      exact ih (k + 1)

lemma pollLoop_finished_terminal (talkId : String) (polls : Nat → PollResp) :
    ∀ (fuel k : Nat) (r : StatusResponse),
      (pollLoop talkId polls k fuel).2 = LoopResult.finished r →
      r.status = some "done" ∨ r.status = some "error" := by
  intro fuel
  induction fuel with
  | zero => intro k r h; exact absurd h (by simp [pollLoop])
  | succ fuel ih =>
      intro k r h
      cases hp : polls k with
      | exn e =>
          simp only [pollLoop, hp] at h
          cases h
      | ok b =>
          by_cases ht : b.status = some "done" ∨ b.status = some "error"
          · simp only [pollLoop, hp, if_pos ht] at h
            cases h
            exact ht
          · simp only [pollLoop, hp, if_neg ht] at h
            exact ih (k + 1) r h

lemma pollLoop_reaches_terminal (talkId : String) (polls : Nat → PollResp) :
    ∀ (n k fuel : Nat) (b : StatusResponse),
      (∀ i, i < n → nonterminalOk (polls (k + i))) →
      polls (k + n) = PollResp.ok b →
      (b.status = some "done" ∨ b.status = some "error") →
      n < fuel →
      (pollLoop talkId polls k fuel).2 = LoopResult.finished b ∧
      (pollLoop talkId polls k fuel).1.countP isNetGet = n + 1 := by
  intro n
  induction n with
  | zero =>
      intro k fuel b _ hn hterm hfuel
      obtain ⟨fuel, rfl⟩ : ∃ f, fuel = f + 1 := ⟨fuel - 1, by omega⟩
      rw [Nat.add_zero] at hn
      refine ⟨?_, ?_⟩
      · simp only [pollLoop, hn]
        rw [if_pos hterm]
      · simp only [pollLoop, hn]
        rw [if_pos hterm]
        simp [List.countP_cons, isNetGet]
  | succ n ih =>
      intro k fuel b hpre hn hterm hfuel
      obtain ⟨fuel, rfl⟩ : ∃ f, fuel = f + 1 := ⟨fuel - 1, by omega⟩
      obtain ⟨c, hc, hcd, hce⟩ := hpre 0 (Nat.succ_pos n)
      rw [Nat.add_zero] at hc
      have hpre' : ∀ i, i < n → nonterminalOk (polls (k + 1 + i)) := by
        intro i hi
        have := hpre (i + 1) (by omega)
        rwa [show k + (i + 1) = k + 1 + i by omega] at this
      have hn' : polls (k + 1 + n) = PollResp.ok b := by
        rwa [show k + 1 + n = k + (n + 1) by omega]
      have hrec := ih (k + 1) fuel b hpre' hn' hterm (by omega)
      refine ⟨?_, ?_⟩
      · simp only [pollLoop, hc]
        rw [if_neg (by simp [hcd, hce])]
        exact hrec.1
      · simp only [pollLoop, hc]
        rw [if_neg (by simp [hcd, hce])]
        simp only [List.countP_append]
        rw [hrec.2]
        simp [List.countP_cons, isNetGet]
        omega

lemma pollLoop_transport_fail (talkId : String) (polls : Nat → PollResp) :
    ∀ (n k fuel : Nat) (e : String),
      (∀ i, i < n → nonterminalOk (polls (k + i))) →
      polls (k + n) = PollResp.exn e →
      n < fuel →
      (pollLoop talkId polls k fuel).2 = LoopResult.transportFail e ∧
      (pollLoop talkId polls k fuel).1.countP isNetGet = n + 1 ∧
      Event.errorMsg ("Error getting D-ID result: " ++ e)
        ∈ (pollLoop talkId polls k fuel).1 := by
  intro n
  induction n with
  | zero =>
      intro k fuel e _ hn hfuel
      obtain ⟨fuel, rfl⟩ : ∃ f, fuel = f + 1 := ⟨fuel - 1, by omega⟩
      rw [Nat.add_zero] at hn
      refine ⟨?_, ?_, ?_⟩
      · simp only [pollLoop, hn]
      · simp only [pollLoop, hn]
        simp [List.countP_cons, isNetGet]
      · simp only [pollLoop, hn]
        simp
  | succ n ih =>
      intro k fuel e hpre hn hfuel
      obtain ⟨fuel, rfl⟩ : ∃ f, fuel = f + 1 := ⟨fuel - 1, by omega⟩
      obtain ⟨c, hc, hcd, hce⟩ := hpre 0 (Nat.succ_pos n)
      rw [Nat.add_zero] at hc
      have hpre' : ∀ i, i < n → nonterminalOk (polls (k + 1 + i)) := by
        intro i hi
        have := hpre (i + 1) (by omega)
        rwa [show k + (i + 1) = k + 1 + i by omega] at this
      have hn' : polls (k + 1 + n) = PollResp.exn e := by
        rwa [show k + 1 + n = k + (n + 1) by omega]
      have hrec := ih (k + 1) fuel e hpre' hn' (by omega)
      refine ⟨?_, ?_, ?_⟩
      · simp only [pollLoop, hc]
        rw [if_neg (by simp [hcd, hce])]
        exact hrec.1
      · simp only [pollLoop, hc]
        rw [if_neg (by simp [hcd, hce])]
        simp only [List.countP_append]
        rw [hrec.2.1]
        simp [List.countP_cons, isNetGet]
        omega
      · simp only [pollLoop, hc]
        rw [if_neg (by simp [hcd, hce])]
        simp only [List.mem_append]
        exact Or.inr hrec.2.2

/-- C2: `get_talk_result` repeats the wait-and-query step while the
observed status is non-terminal; the first `done` status ends the loop and
the function returns the job's `result_url`; the first `error` status ends
the loop and the function fails, reporting a message that carries the
service-provided error payload and returning `None`.  In all terminal runs
exactly `n + 1` status queries are made. -/
theorem C2_poll_state_machine (key talkId : String) (polls : Nat → PollResp)
    (n fuel : Nat) (b : StatusResponse)
    (hpre : ∀ i, i < n → nonterminalOk (polls i))
    (hn : polls n = PollResp.ok b)
    (hterm : b.status = some "done" ∨ b.status = some "error")
    (hfuel : n < fuel) :
    (b.status = some "done" →
      (get_talk_result (some key) talkId polls fuel).2 = TalkRet.out b.result_url) ∧
    (b.status = some "error" →
      (get_talk_result (some key) talkId polls fuel).2 = TalkRet.out none ∧
      Event.errorMsg ("D-ID job failed: " ++ pyStr b.result)
        ∈ (get_talk_result (some key) talkId polls fuel).1) ∧
    (get_talk_result (some key) talkId polls fuel).1.countP isNetGet = n + 1 := by
  have hreach := pollLoop_reaches_terminal talkId polls n 0 fuel b
    (by intro i hi; simpa using hpre i hi) (by simpa using hn) hterm hfuel
  refine ⟨?_, ?_, ?_⟩
  · intro hdone
    simp only [get_talk_result, hreach.1]
    rw [if_neg (by simp [hdone])]
  · intro herr
    refine ⟨?_, ?_⟩
    · simp only [get_talk_result, hreach.1]
      rw [if_pos herr]
    · simp only [get_talk_result, hreach.1]
      rw [if_pos herr]
      simp
  · by_cases herr : b.status = some "error"
    · simp only [get_talk_result, hreach.1]
      rw [if_pos herr]
      simp only [List.countP_append]
      rw [hreach.2]
      simp [List.countP_cons, isNetGet]
    · simp only [get_talk_result, hreach.1]
      rw [if_neg herr]
      exact hreach.2

/-- The Scenario-A poll stream: one `processing` answer, then `done` with
the result URL. -/
def pollsScenA : Nat → PollResp := fun i =>
  if i = 0 then .ok ⟨some "processing", none, none⟩
  else .ok ⟨some "done", some "https://x/v.mp4", none⟩

theorem C2_poll_state_machine_witness :
    (get_talk_result (some "key") "abc123" pollsScenA 5).2
      = TalkRet.out (some "https://x/v.mp4") := by
  have hpre : ∀ i, i < 1 → nonterminalOk (pollsScenA i) := by
    intro i hi
    have h0 : i = 0 := by omega
    subst h0
    exact ⟨⟨some "processing", none, none⟩, rfl, by simp, by simp⟩
  exact (C2_poll_state_machine "key" "abc123" pollsScenA 1 5
    ⟨some "done", some "https://x/v.mp4", none⟩ hpre rfl (Or.inl rfl) (by omega)).1 rfl

/-- C4: the baseline polling loop has no attempt bound: it reaches a
`finished` state only when a poll observed status `done` or `error`, and
on a stream whose status is never terminal (absent or non-enum statuses
included) it is still `running` after every amount of fuel. -/
theorem C4_unbounded_poll (talkId : String) (polls : Nat → PollResp) :
    (∀ (fuel k : Nat) (r : StatusResponse),
      (pollLoop talkId polls k fuel).2 = LoopResult.finished r →
      r.status = some "done" ∨ r.status = some "error") ∧
    ((∀ i, nonterminalOk (polls i)) →
      ∀ (fuel k : Nat), (pollLoop talkId polls k fuel).2 = LoopResult.running) :=
  ⟨pollLoop_finished_terminal talkId polls,
   fun h => pollLoop_running talkId polls h⟩

/-- A status endpoint that forever answers `processing`. -/
def pollsPending : Nat → PollResp := fun _ => .ok ⟨some "processing", none, none⟩

theorem C4_unbounded_poll_witness :
    (pollLoop "abc123" pollsPending 0 7).2 = LoopResult.running :=
  (C4_unbounded_poll "abc123" pollsPending).2
    (fun _ => ⟨⟨some "processing", none, none⟩, rfl, by simp, by simp⟩) 7 0

/-- C7: every stage failure is caught inside the stage, converted to a
human-readable error message and a `None` return, and no stage retries:
a failing `create_talk` makes exactly one POST; a transport failure at
poll `n` ends `get_talk_result` after exactly `n + 1` status queries;
failing transcription and compositing report and return `None`. -/
theorem C7_stage_failures (key talkId script tok e1 e2 e3 e4 : String)
    (text : Option String) (polls : Nat → PollResp) (n fuel : Nat)
    (segs : List Segment)
    (hpre : ∀ i, i < n → nonterminalOk (polls i))
    (hn : polls n = PollResp.exn e2) (hfuel : n < fuel) :
    create_talk (some key) script (.exn e1 text)
      = ([.netPost D_ID_URL script,
          .errorMsg ("Error creating D-ID talk: " ++ e1 ++ "\nResponse: " ++ pyRespText text)],
         none) ∧
    ((get_talk_result (some key) talkId polls fuel).2 = TalkRet.out none ∧
      Event.errorMsg ("Error getting D-ID result: " ++ e2)
        ∈ (get_talk_result (some key) talkId polls fuel).1 ∧
      (get_talk_result (some key) talkId polls fuel).1.countP isNetGet = n + 1) ∧
    transcribe_audio_with_timestamps (some tok) (.exn e3)
      = ([.errorMsg ("An error occurred during transcription: " ++ e3)], none) ∧
    ((create_video_with_captions (.exn e4) segs).2 = none ∧
      Event.errorMsg ("Error creating captioned video: " ++ e4)
        ∈ (create_video_with_captions (.exn e4) segs).1) := by
  have htf := pollLoop_transport_fail talkId polls n 0 fuel e2
    (by intro i hi; simpa using hpre i hi) (by simpa using hn) hfuel
  refine ⟨rfl, ⟨?_, ?_, ?_⟩, rfl, ⟨rfl, ?_⟩⟩
  · simp only [get_talk_result, htf.1]
  · simp only [get_talk_result, htf.1]
    exact htf.2.2
  · simp only [get_talk_result, htf.1]
    exact htf.2.1
  · simp [create_video_with_captions]

/-- A status endpoint whose first poll raises a transport error. -/
def pollsFailNow : Nat → PollResp := fun _ => .exn "boom"

theorem C7_stage_failures_witness :
    create_talk (some "key") "Hello world" (.exn "HTTP 500" (some "oops"))
      = ([.netPost D_ID_URL "Hello world",
          .errorMsg ("Error creating D-ID talk: " ++ "HTTP 500" ++ "\nResponse: " ++ pyRespText (some "oops"))],
         none) ∧
    ((get_talk_result (some "key") "abc123" pollsFailNow 1).2 = TalkRet.out none ∧
      Event.errorMsg ("Error getting D-ID result: " ++ "boom")
        ∈ (get_talk_result (some "key") "abc123" pollsFailNow 1).1 ∧
      (get_talk_result (some "key") "abc123" pollsFailNow 1).1.countP isNetGet = 0 + 1) ∧
    transcribe_audio_with_timestamps (some "tok") (.exn "bad audio")
      = ([.errorMsg ("An error occurred during transcription: " ++ "bad audio")], none) ∧
    ((create_video_with_captions (.exn "boom2") []).2 = none ∧
      Event.errorMsg ("Error creating captioned video: " ++ "boom2")
        ∈ (create_video_with_captions (.exn "boom2") []).1) :=
  C7_stage_failures "key" "abc123" "Hello world" "tok" "HTTP 500" "boom" "bad audio" "boom2"
    (some "oops") pollsFailNow 0 1 []
    (fun i hi => absurd hi (Nat.not_lt_zero i)) rfl (by omega)

/-- C6 counterexample: with a valid key and non-empty script, a 2xx
response whose body is `{"id": ""}` makes `create_talk` return the body —
an empty identifier — with no error of any kind: it neither returns a
non-empty identifier nor fails. -/
theorem C6_counterexample :
    create_talk (some "key") "Hello world" (.ok ⟨some ""⟩)
      = ([Event.netPost D_ID_URL "Hello world"], some ⟨some ""⟩) := rfl

/-- C6 (amended): `create_talk` returns the parsed response body without
validating the identifier; on a transport/HTTP error it reports a message
carrying the exception text and the response body and returns `None`.  The
Feature-1 orchestrator, not `create_talk`, rejects an absent or empty id:
whenever the run reaches the polling phase (marked by the job-started
message), the submission response contained a non-empty id. -/
theorem C6_submission_contract (key script : String) (http : HttpOutcome)
    (polls : Nat → PollResp) (fuel : Nat) :
    (∀ e text, http = HttpOutcome.exn e text →
      create_talk (some key) script http
        = ([.netPost D_ID_URL script,
            .errorMsg ("Error creating D-ID talk: " ++ e ++ "\nResponse: " ++ pyRespText text)],
           none)) ∧
    (Event.info "Video generation job started! Please wait, this can take a few minutes."
        ∈ (presenterHandler script (some key) http polls fuel).1 →
      ∃ d i, (create_talk (some key) script http).2 = some d ∧ d.id = some i ∧ i ≠ "") := by
  constructor
  · intro e text he
    subst he
    rfl
  · intro hmem
    by_cases hs : script = ""
    · rw [presenterHandler, if_pos hs] at hmem
      simp at hmem
    · cases http with
      | exn e text =>
          exfalso
          simp [presenterHandler, hs, create_talk] at hmem
      | ok body =>
          cases hid : body.id with
          | none =>
              exfalso
              simp [presenterHandler, hs, create_talk, hid] at hmem
          | some i =>
              by_cases hi : i = ""
              · exfalso
                subst hi
                simp [presenterHandler, hs, create_talk, hid] at hmem
              · exact ⟨body, i, rfl, hid, hi⟩

/-- A status endpoint that immediately answers `done` with a result URL. -/
def pollsDone : Nat → PollResp := fun _ => .ok ⟨some "done", some "https://x/v.mp4", none⟩

theorem C6_submission_contract_witness :
    ∃ d i, (create_talk (some "key") "Hello world" (.ok ⟨some "abc123"⟩)).2 = some d ∧
      d.id = some i ∧ i ≠ "" :=
  (C6_submission_contract "key" "Hello world" (.ok ⟨some "abc123"⟩) pollsDone 1).2
    (by decide)

/-- C8: when transcription fails or yields empty or absent segment data,
the captioning pipeline reports "Could not transcribe the audio." and
aborts before the compositing stage (the Step-3/3 burn stage never starts),
returns no output and never offers the download button. -/
theorem C8_abort_on_transcription_failure (tok : String)
    (run : ReplicateOutcome) (env : MoviepyEnv)
    (h : pyTruthyList (transcribe_audio_with_timestamps (some tok) run).2 = false) :
    (captioningHandler (some tok) run env).2 = none ∧
    Event.errorMsg "Could not transcribe the audio."
      ∈ (captioningHandler (some tok) run env).1 ∧
    Event.spinner "Step 3/3: Burning captions onto your video... This is intensive!"
      ∉ (captioningHandler (some tok) run env).1 ∧
    Event.downloadButton ∉ (captioningHandler (some tok) run env).1 := by
  cases run with
  | exn e =>
      refine ⟨rfl, ?_, ?_, ?_⟩ <;>
        simp [captioningHandler, transcribe_audio_with_timestamps]
  | ok output =>
      cases hseg : output.segments with
      | none =>
          refine ⟨?_, ?_, ?_, ?_⟩ <;>
            simp [captioningHandler, transcribe_audio_with_timestamps, hseg]
      | some l =>
          cases l with
          | nil =>
              refine ⟨?_, ?_, ?_, ?_⟩ <;>
                simp [captioningHandler, transcribe_audio_with_timestamps, hseg]
          | cons s ss =>
              exfalso
              rw [show transcribe_audio_with_timestamps (some tok) (.ok output)
                  = ([], some (output.segments.getD [])) from rfl] at h
              rw [hseg] at h
              simp [pyTruthyList] at h

theorem C8_abort_witness :
    (captioningHandler (some "tok") (.ok ⟨none⟩) MoviepyEnv.ok).2 = none ∧
    Event.errorMsg "Could not transcribe the audio."
      ∈ (captioningHandler (some "tok") (.ok ⟨none⟩) MoviepyEnv.ok).1 ∧
    Event.spinner "Step 3/3: Burning captions onto your video... This is intensive!"
      ∉ (captioningHandler (some "tok") (.ok ⟨none⟩) MoviepyEnv.ok).1 ∧
    Event.downloadButton ∉ (captioningHandler (some "tok") (.ok ⟨none⟩) MoviepyEnv.ok).1 :=
  C8_abort_on_transcription_failure "tok" (.ok ⟨none⟩) MoviepyEnv.ok (by decide)
